import Mathlib

/-!
Verification development for the FFMPEG HDF5 filter's Python layer
(`h5ffmpeg`).  The definitions below are shallow embeddings of:

* `src/h5ffmpeg/gpu_utils.py` — the hardware negotiator
  (`validate_and_adjust_gpu_id`), with the external hardware probe
  (`detect_available_gpus`) modelled as an explicit `Option GpuInfo`
  argument: `none` means the probe was never executed, so a branch whose
  result is defined at `none` provably performs no probe.
* `src/h5ffmpeg/ffmpeg_filter.py` — the parameter resolver (`ffmpeg`)
  with its static codec / preset / tune tables.
* `src/h5ffmpeg/patches.py` — the quantization transforms installed on
  the array store (`_patched_setitem`, `_patched_getitem`, and the
  quantization kernel of `_patched_create_dataset`), embedded over ℝ.
  Operations that raise or warn in Python when their argument is out of
  domain (`math.log` of a non-positive number or with base 1, division
  by zero) are embedded as `Option`-valued operations returning `none`,
  which marks that an undefined operation was evaluated.
-/

namespace H5ffmpeg

/-- Result of `detect_available_gpus` in `gpu_utils.py`: the probed
device count for each vendor. -/
structure GpuInfo where
  nvidia : Nat
  intel : Nat
deriving DecidableEq

/-- Substring containment, embedding Python's `needle in haystack` on
strings (empty needle is contained in everything). -/
def hasSub (needle : List Char) : List Char → Bool
  | [] => needle.isEmpty
  | c :: rest => needle.isPrefixOf (c :: rest) || hasSub needle rest

/-- Classification used by `validate_and_adjust_gpu_id`:
`"nvenc" in codec or "cuvid" in codec`. -/
def isNvidiaCodec (codec : String) : Bool :=
  hasSub "nvenc".data codec.data || hasSub "cuvid".data codec.data

/-- Classification used by `validate_and_adjust_gpu_id`: `"qsv" in codec`. -/
def isQsvCodec (codec : String) : Bool :=
  hasSub "qsv".data codec.data

/-- Embedding of `validate_and_adjust_gpu_id` from `gpu_utils.py`.
The probe `detect_available_gpus()` is only called after the
`requested_gpu_id < 0` early return, so it appears here as an
`Option GpuInfo` consumed only on the non-negative path; `none` models
"the probe never ran". -/
def validate_and_adjust_gpu_id (probe : Option GpuInfo) (codec : String)
    (requested_gpu_id : Int) : Option Int :=
  if requested_gpu_id < 0 then some (-1)
  else
    match probe with
    | none => none
    | some gpu_info =>
      if isNvidiaCodec codec then
        if gpu_info.nvidia = 0 then some (-1)
        else if (gpu_info.nvidia : Int) ≤ requested_gpu_id then
          some (min requested_gpu_id ((gpu_info.nvidia : Int) - 1))
        else some requested_gpu_id
      else if isQsvCodec codec then
        if gpu_info.intel = 0 then some (-1) else some 0
      else some requested_gpu_id

end H5ffmpeg

namespace H5ffmpeg

/-- C6: for every nvidia-class codec and every `requested_gpu_id ≥ 0`:
probed nvidia count 0 gives −1; `requested_gpu_id ≥ count` gives
`count − 1`; otherwise `requested_gpu_id` unchanged.  Including the two
concrete examples `validate("h264_nvenc", 0)` with count 0 → −1 and
`validate("h264_nvenc", 5)` with count 2 → 1. -/
theorem nvidia_validate_spec (codec : String) (gi : GpuInfo)
    (req : Int) (hc : isNvidiaCodec codec = true) (h0 : 0 ≤ req) :
    (gi.nvidia = 0 →
      validate_and_adjust_gpu_id (some gi) codec req = some (-1)) ∧
    (gi.nvidia ≠ 0 → (gi.nvidia : Int) ≤ req →
      validate_and_adjust_gpu_id (some gi) codec req =
        some ((gi.nvidia : Int) - 1)) ∧
    (gi.nvidia ≠ 0 → req < (gi.nvidia : Int) →
      validate_and_adjust_gpu_id (some gi) codec req = some req) ∧
    validate_and_adjust_gpu_id (some ⟨0, 0⟩) "h264_nvenc" 0 = some (-1) ∧
    validate_and_adjust_gpu_id (some ⟨2, 0⟩) "h264_nvenc" 5 = some 1 := by
  refine ⟨?_, ?_, ?_, by decide, by decide⟩
  · intro hz
    simp [validate_and_adjust_gpu_id, hc, hz, not_lt.mpr h0]
  · intro hnz hle
    have hmin : min req ((gi.nvidia : Int) - 1) = (gi.nvidia : Int) - 1 :=
      min_eq_right (by omega)
    simp [validate_and_adjust_gpu_id, hc, hnz, hle, not_lt.mpr h0, hmin]
  · intro hnz hlt
    simp [validate_and_adjust_gpu_id, hc, hnz, not_le.mpr hlt, not_lt.mpr h0]

/-- Witness for C6 at codec `"h264_nvenc"`, probed counts `⟨2, 0⟩`,
requested id 5: the clamped branch yields 1. -/
theorem nvidia_validate_spec_witness :
    isNvidiaCodec "h264_nvenc" = true ∧ (0 : Int) ≤ 5 ∧
    validate_and_adjust_gpu_id (some ⟨2, 0⟩) "h264_nvenc" 5 =
      some ((((2 : Nat) : Int)) - 1) :=
  ⟨by decide, by decide,
    (nvidia_validate_spec "h264_nvenc" ⟨2, 0⟩ 5 (by decide) (by decide)).2.1
      (by decide) (by decide)⟩

/-- C7: for every codec and every `requested_gpu_id < 0` the negotiator
returns −1 with the hardware probe never executed: the result is already
defined when the probe argument is `none`, and it is the same for every
probe outcome. -/
theorem negative_gpu_id_no_probe (codec : String) (req : Int)
    (h : req < 0) :
    ∀ probe : Option GpuInfo,
      validate_and_adjust_gpu_id probe codec req = some (-1) := by
  intro probe
  simp [validate_and_adjust_gpu_id, h]

/-- Witness for C7 at codec `"libx264"`, requested id −1, probe absent. -/
theorem negative_gpu_id_no_probe_witness :
    (-1 : Int) < 0 ∧
    validate_and_adjust_gpu_id none "libx264" (-1) = some (-1) :=
  ⟨by decide, negative_gpu_id_no_probe "libx264" (-1) (by decide) none⟩

/-- C10: for every codec string, probed counts, and requested id, the
negotiator's answer exists, is at least −1, and never exceeds a
non-negative request. -/
theorem validate_result_bounded (gi : GpuInfo) (codec : String)
    (req : Int) :
    ∃ v, validate_and_adjust_gpu_id (some gi) codec req = some v ∧
      -1 ≤ v ∧ (0 ≤ req → v ≤ req) := by
  unfold validate_and_adjust_gpu_id
  by_cases hneg : req < 0
  · exact ⟨-1, by simp [hneg], by omega, by omega⟩
  · cases hnv : isNvidiaCodec codec with
    | true =>
      by_cases hz : gi.nvidia = 0
      · exact ⟨-1, by simp [hneg, hnv, hz], by omega, by omega⟩
      · by_cases hle : (gi.nvidia : Int) ≤ req
        · refine ⟨min req ((gi.nvidia : Int) - 1),
            by simp [hneg, hnv, hz, hle], ?_, ?_⟩
          · have : 1 ≤ (gi.nvidia : Int) := by omega
            omega
          · intro _; omega
        · exact ⟨req, by simp [hneg, hnv, hz, hle], by omega, by omega⟩
    | false =>
      cases hq : isQsvCodec codec with
      | true =>
        by_cases hz : gi.intel = 0
        · exact ⟨-1, by simp [hneg, hnv, hq, hz], by omega, by omega⟩
        · exact ⟨0, by simp [hneg, hnv, hq, hz], by omega, by omega⟩
      | false =>
        exact ⟨req, by simp [hneg, hnv, hq], by omega, by omega⟩

end H5ffmpeg

namespace H5ffmpeg

/-- Encoder codec identifiers (class `EncoderCodec` in `ffmpeg_filter.py`). -/
def EncoderCodec.MPEG4 : Int := 0
/-- Encoder id for libxvid. -/
def EncoderCodec.XVID : Int := 1
/-- Encoder id for libx264. -/
def EncoderCodec.X264 : Int := 2
/-- Encoder id for h264_nvenc. -/
def EncoderCodec.H264_NVENC : Int := 3
/-- Encoder id for libx265. -/
def EncoderCodec.X265 : Int := 4
/-- Encoder id for hevc_nvenc. -/
def EncoderCodec.HEVC_NVENC : Int := 5
/-- Encoder id for libsvtav1. -/
def EncoderCodec.SVTAV1 : Int := 6
/-- Encoder id for librav1e. -/
def EncoderCodec.RAV1E : Int := 7
/-- Encoder id for av1_nvenc. -/
def EncoderCodec.AV1_NVENC : Int := 8
/-- Encoder id for av1_qsv. -/
def EncoderCodec.AV1_QSV : Int := 9

/-- Decoder codec identifiers (class `DecoderCodec` in `ffmpeg_filter.py`). -/
def DecoderCodec.MPEG4 : Int := 0
/-- Decoder id for h264. -/
def DecoderCodec.H264 : Int := 1
/-- Decoder id for h264_cuvid. -/
def DecoderCodec.H264_CUVID : Int := 2
/-- Decoder id for hevc. -/
def DecoderCodec.HEVC : Int := 3
/-- Decoder id for hevc_cuvid. -/
def DecoderCodec.HEVC_CUVID : Int := 4
/-- Decoder id for libaom-av1. -/
def DecoderCodec.AOMAV1 : Int := 5
/-- Decoder id for libdav1d. -/
def DecoderCodec.DAV1D : Int := 6
/-- Decoder id for av1_cuvid. -/
def DecoderCodec.AV1_CUVID : Int := 7
/-- Decoder id for av1_qsv. -/
def DecoderCodec.AV1_QSV : Int := 8

/-- `CODEC_TO_ENCODER` table from `ffmpeg_filter.py`. -/
def CODEC_TO_ENCODER : List (String × Int) :=
  [("mpeg4", EncoderCodec.MPEG4),
   ("libxvid", EncoderCodec.XVID),
   ("libx264", EncoderCodec.X264),
   ("h264_nvenc", EncoderCodec.H264_NVENC),
   ("libx265", EncoderCodec.X265),
   ("hevc_nvenc", EncoderCodec.HEVC_NVENC),
   ("libsvtav1", EncoderCodec.SVTAV1),
   ("librav1e", EncoderCodec.RAV1E),
   ("av1_nvenc", EncoderCodec.AV1_NVENC),
   ("av1_qsv", EncoderCodec.AV1_QSV)]

/-- `CODEC_TO_DECODER` table from `ffmpeg_filter.py`. -/
def CODEC_TO_DECODER : List (String × Int) :=
  [("mpeg4", DecoderCodec.MPEG4),
   ("h264", DecoderCodec.H264),
   ("h264_cuvid", DecoderCodec.H264_CUVID),
   ("hevc", DecoderCodec.HEVC),
   ("hevc_cuvid", DecoderCodec.HEVC_CUVID),
   ("libaom-av1", DecoderCodec.AOMAV1),
   ("libdav1d", DecoderCodec.DAV1D),
   ("av1_cuvid", DecoderCodec.AV1_CUVID),
   ("av1_qsv", DecoderCodec.AV1_QSV)]

/-- `PRESET_MAPPING` table from `ffmpeg_filter.py`: per-codec preset
vocabularies with the numeric ids of class `Preset`. -/
def PRESET_MAPPING : List (String × List (String × Int)) :=
  [("libx264",
    [("ultrafast", 10), ("superfast", 11), ("veryfast", 12),
     ("faster", 13), ("fast", 14), ("medium", 15), ("slow", 16),
     ("slower", 17), ("veryslow", 18)]),
   ("h264_nvenc",
    [("p1", 100), ("p2", 101), ("p3", 102), ("p4", 103), ("p5", 104),
     ("p6", 105), ("p7", 106)]),
   ("libx265",
    [("ultrafast", 200), ("superfast", 201), ("veryfast", 202),
     ("faster", 203), ("fast", 204), ("medium", 205), ("slow", 206),
     ("slower", 207), ("veryslow", 208)]),
   ("hevc_nvenc",
    [("p1", 300), ("p2", 301), ("p3", 302), ("p4", 303), ("p5", 304),
     ("p6", 305), ("p7", 306)]),
   ("libsvtav1",
    [("0", 400), ("1", 401), ("2", 402), ("3", 403), ("4", 404),
     ("5", 405), ("6", 406), ("7", 407), ("8", 408), ("9", 409),
     ("10", 410), ("11", 411), ("12", 412), ("13", 413)]),
   ("librav1e",
    [("0", 500), ("1", 501), ("2", 502), ("3", 503), ("4", 504),
     ("5", 505), ("6", 506), ("7", 507), ("8", 508), ("9", 509),
     ("10", 510)]),
   ("av1_nvenc",
    [("p1", 600), ("p2", 601), ("p3", 602), ("p4", 603), ("p5", 604),
     ("p6", 605), ("p7", 606)]),
   ("av1_qsv",
    [("veryfast", 700), ("faster", 701), ("fast", 702), ("medium", 703),
     ("slow", 704), ("slower", 705), ("veryslow", 706)])]

/-- `TUNE_MAPPING` table from `ffmpeg_filter.py`: per-codec tune
vocabularies with the numeric ids of class `Tune`. -/
def TUNE_MAPPING : List (String × List (String × Int)) :=
  [("libx264",
    [("psnr", 10), ("ssim", 11), ("grain", 12), ("fastdecode", 13),
     ("zerolatency", 14), ("animation", 15), ("film", 16),
     ("stillimage", 17)]),
   ("h264_nvenc",
    [("hq", 100), ("ll", 101), ("ull", 102), ("lossless", 103)]),
   ("libx265",
    [("psnr", 200), ("ssim", 201), ("grain", 202), ("fastdecode", 203),
     ("zerolatency", 204), ("animation", 205)]),
   ("hevc_nvenc",
    [("hq", 300), ("ll", 301), ("ull", 302), ("lossless", 303)]),
   ("libsvtav1",
    [("vq", 400), ("psnr", 401), ("fastdecode", 402)]),
   ("librav1e",
    [("psnr", 500), ("psychovisual", 501)]),
   ("av1_nvenc",
    [("hq", 600), ("ll", 601), ("ull", 602), ("lossless", 603)]),
   ("av1_qsv",
    [("unknown", 700), ("displayremoting", 701), ("videoconference", 702),
     ("archive", 703), ("livestreaming", 704), ("cameracapture", 705),
     ("videosurveillance", 706), ("gamestreaming", 707),
     ("remotegaming", 708)])]

/-- `DEFAULT_DECODER` table from `ffmpeg_filter.py`: the default
software decoder for each encoder id. -/
def DEFAULT_DECODER : List (Int × Int) :=
  [(EncoderCodec.MPEG4, DecoderCodec.MPEG4),
   (EncoderCodec.XVID, DecoderCodec.MPEG4),
   (EncoderCodec.X264, DecoderCodec.H264),
   (EncoderCodec.H264_NVENC, DecoderCodec.H264),
   (EncoderCodec.X265, DecoderCodec.HEVC),
   (EncoderCodec.HEVC_NVENC, DecoderCodec.HEVC),
   (EncoderCodec.SVTAV1, DecoderCodec.AOMAV1),
   (EncoderCodec.RAV1E, DecoderCodec.AOMAV1),
   (EncoderCodec.AV1_NVENC, DecoderCodec.AOMAV1),
   (EncoderCodec.AV1_QSV, DecoderCodec.AOMAV1)]

/-- `DEFAULT_GPU_DECODER` table from `ffmpeg_filter.py`: the hardware
decoder counterpart of each GPU-based encoder id. -/
def DEFAULT_GPU_DECODER : List (Int × Int) :=
  [(EncoderCodec.H264_NVENC, DecoderCodec.H264_CUVID),
   (EncoderCodec.HEVC_NVENC, DecoderCodec.HEVC_CUVID),
   (EncoderCodec.AV1_NVENC, DecoderCodec.AV1_CUVID),
   (EncoderCodec.AV1_QSV, DecoderCodec.AV1_QSV)]

/-- The eleven-field `filter_options` tuple built by `ffmpeg` and
`FFMPEG.__init__`, in its fixed order. -/
structure ParameterSet where
  enc_id : Int
  dec_id : Int
  width : Int
  height : Int
  depth : Int
  bit_mode : Int
  preset_id : Int
  tune_id : Int
  crf : Int
  film_grain : Int
  gpu_id : Int
deriving DecidableEq

/-- Errors raised by `ffmpeg` in `ffmpeg_filter.py` (Python
`ValueError`s), carrying the lists of valid alternatives quoted in the
message. -/
inductive FfmpegError
  | unknownCodec (available : List String)
  | unknownDecoder (available : List String)
  | invalidPreset (preset codec : String) (valid : List String)
  | invalidTune (tune codec : String) (valid : List String)
deriving DecidableEq

/-- Decoder selection block of `ffmpeg` (lines 554-565): an explicit
decoder name is looked up in `CODEC_TO_DECODER`; otherwise the GPU
decoder counterpart is used when `gpu_id ≥ 0` and one exists, else the
encoder's default software decoder. -/
def resolveDecoder (decoder : Option String) (enc_id : Int)
    (gpu_id : Int) : Except FfmpegError Int :=
  match decoder with
  | none =>
    if 0 ≤ gpu_id then
      match List.lookup enc_id DEFAULT_GPU_DECODER with
      | some d => .ok d
      | none => .ok ((List.lookup enc_id DEFAULT_DECODER).getD 0)
    else .ok ((List.lookup enc_id DEFAULT_DECODER).getD 0)
  | some dn =>
    match List.lookup dn CODEC_TO_DECODER with
    | some d => .ok d
    | none => .error (.unknownDecoder (CODEC_TO_DECODER.map (·.1)))

/-- The preset names valid for a codec:
`list(PRESET_MAPPING.get(codec, {}).keys())`. -/
def presetKeys (codec : String) : List String :=
  ((List.lookup codec PRESET_MAPPING).getD []).map (·.1)

/-- Preset resolution block of `ffmpeg` (lines 567-574): `None` maps to
`Preset.NONE`; a name is looked up in the codec's own vocabulary, and an
invalid name raises quoting exactly that codec's valid preset names. -/
def resolvePreset (codec : String) (preset : Option String) :
    Except FfmpegError Int :=
  match preset with
  | none => .ok 0
  | some p =>
    match List.lookup codec PRESET_MAPPING with
    | some m =>
      match List.lookup p m with
      | some pid => .ok pid
      | none => .error (.invalidPreset p codec (m.map (·.1)))
    | none => .error (.invalidPreset p codec [])

/-- Tune resolution block of `ffmpeg` (lines 576-583), mirroring the
preset block over `TUNE_MAPPING`. -/
def resolveTune (codec : String) (tune : Option String) :
    Except FfmpegError Int :=
  match tune with
  | none => .ok 0
  | some t =>
    match List.lookup codec TUNE_MAPPING with
    | some m =>
      match List.lookup t m with
      | some tid => .ok tid
      | none => .error (.invalidTune t codec (m.map (·.1)))
    | none => .error (.invalidTune t codec [])

/-- Embedding of the `ffmpeg` resolver from `ffmpeg_filter.py`: codec
lookup, decoder selection, preset and tune resolution, then the packed
eleven-field tuple `(enc_id, dec_id, width or 0, height or 0,
depth or 0, bit_mode, preset_id, tune_id, crf or 0, film_grain,
gpu_id)`.  The hardware-availability check (lines 585-593) only logs
and is omitted. -/
def ffmpeg (codec : String) (decoder : Option String)
    (preset : Option String) (tune : Option String) (crf : Option Int)
    (bit_mode : Int) (film_grain : Int) (gpu_id : Int)
    (width height depth : Option Int) :
    Except FfmpegError ParameterSet :=
  match List.lookup codec CODEC_TO_ENCODER with
  | none => .error (.unknownCodec (CODEC_TO_ENCODER.map (·.1)))
  | some enc_id =>
    match resolveDecoder decoder enc_id gpu_id with
    | .error e => .error e
    | .ok dec_id =>
      match resolvePreset codec preset with
      | .error e => .error e
      | .ok preset_id =>
        match resolveTune codec tune with
        | .error e => .error e
        | .ok tune_id =>
          .ok ⟨enc_id, dec_id, width.getD 0, height.getD 0, depth.getD 0,
               bit_mode, preset_id, tune_id, crf.getD 0, film_grain,
               gpu_id⟩

/-- The chunk-dimension splice of `_patched_create_dataset`
(`comp_opts[2:5] = chunks[::-1]` for a 3-D chunk shape
`(depth, height, width)`): positions 2, 3, 4 of the tuple become
width, height, depth. -/
def applyChunkDims (p : ParameterSet) (cDepth cHeight cWidth : Int) :
    ParameterSet :=
  { p with width := cWidth, height := cHeight, depth := cDepth }

end H5ffmpeg

namespace H5ffmpeg

/-- Keys absent from an association list look up to `none`. -/
theorem lookup_none_of_not_key {β : Type} (p : String)
    (m : List (String × β)) (h : p ∉ m.map (·.1)) :
    List.lookup p m = none := by
  induction m with
  | nil => rfl
  | cons hd tl ih =>
    simp only [List.map_cons, List.mem_cons, not_or] at h
    have hne : (p == hd.1) = false := by
      simp [beq_eq_false_iff_ne, h.1]
    simp [List.lookup, hne, ih h.2]

/-- Decoder selection with no explicit decoder name never fails. -/
theorem resolveDecoder_none_ok (e gpu : Int) :
    ∃ d, resolveDecoder none e gpu = .ok d := by
  unfold resolveDecoder
  by_cases hg : 0 ≤ gpu
  · cases hl : List.lookup e DEFAULT_GPU_DECODER with
    | none =>
      exact ⟨(List.lookup e DEFAULT_DECODER).getD 0, by simp [hg, hl]⟩
    | some d => exact ⟨d, by simp [hg, hl]⟩
  · exact ⟨(List.lookup e DEFAULT_DECODER).getD 0, by simp [hg]⟩

/-- C8: for every known codec and preset name outside that codec's
vocabulary, `ffmpeg` fails with the invalid-preset error listing exactly
that codec's valid preset names (and no other codec's); the libx264
vocabulary is exactly the nine names, and
`ffmpeg("libx264", preset="bogus")` lists exactly those nine. -/
theorem preset_error_scope (codec preset : String) (e : Int)
    (tune : Option String) (crf : Option Int)
    (bit_mode film_grain gpu_id : Int) (width height depth : Option Int)
    (henc : List.lookup codec CODEC_TO_ENCODER = some e)
    (hp : preset ∉ presetKeys codec) :
    ffmpeg codec none (some preset) tune crf bit_mode film_grain gpu_id
        width height depth =
      .error (.invalidPreset preset codec (presetKeys codec)) ∧
    presetKeys "libx264" =
      ["ultrafast", "superfast", "veryfast", "faster", "fast", "medium",
       "slow", "slower", "veryslow"] ∧
    ffmpeg "libx264" none (some "bogus") none none 0 0 0 none none none =
      .error (.invalidPreset "bogus" "libx264"
        ["ultrafast", "superfast", "veryfast", "faster", "fast", "medium",
         "slow", "slower", "veryslow"]) := by
  refine ⟨?_, by decide, by rfl⟩
  obtain ⟨d, hd⟩ := resolveDecoder_none_ok e gpu_id
  have hpr : resolvePreset codec (some preset) =
      .error (.invalidPreset preset codec (presetKeys codec)) := by
    unfold resolvePreset
    cases hm : List.lookup codec PRESET_MAPPING with
    | none => simp [presetKeys, hm]
    | some m =>
      have hk : presetKeys codec = m.map (·.1) := by
        simp [presetKeys, hm]
      have hnone : List.lookup preset m = none := by
        apply lookup_none_of_not_key
        rw [← hk]
        exact hp
      simp [hm, hnone, hk]
  simp only [ffmpeg, henc, hd, hpr]

/-- Witness for C8 at codec `"libx264"`, preset `"medium2"` (not in the
vocabulary): the resolver fails listing exactly the libx264 presets. -/
theorem preset_error_scope_witness :
    List.lookup "libx264" CODEC_TO_ENCODER = some EncoderCodec.X264 ∧
    "medium2" ∉ presetKeys "libx264" ∧
    ffmpeg "libx264" none (some "medium2") none none 0 0 0 none none
        none =
      .error (.invalidPreset "medium2" "libx264" (presetKeys "libx264")) :=
  ⟨by decide, by decide,
    (preset_error_scope "libx264" "medium2" EncoderCodec.X264 none none
      0 0 0 none none none (by decide) (by decide)).1⟩

/-- C9: resolving `{codec: "libx264", preset: "medium", crf: 23,
bit_mode: 8-bit, gpu: 0}` and splicing the chunk dimensions
`(100, 256, 256)` yields the eleven-field ParameterSet
`(X264, H264, 256, 256, 100, 0, MEDIUM, NONE, 23, 0, 0)`. -/
theorem resolve_libx264_medium_example :
    (ffmpeg "libx264" none (some "medium") none (some 23) 0 0 0 none
        none none).map (fun p => applyChunkDims p 100 256 256) =
      .ok ⟨2, 1, 256, 256, 100, 0, 15, 0, 23, 0, 0⟩ := by
  rfl

end H5ffmpeg

namespace H5ffmpeg

/-- The `np.finfo(float).eps` constant subtracted from the derived
exponent in `_patched_create_dataset`: the double-precision machine
epsilon 2⁻⁵². -/
noncomputable def machineEps : ℝ := (2 ^ 52)⁻¹

/-- `max_bitType_val = (1 << bit) - 1` from `patches.py`, over ℝ. -/
noncomputable def maxBitVal (bit : ℕ) : ℝ := 2 ^ bit - 1

/-- Division, with `none` marking that a division by zero was
evaluated (numpy warns and produces non-finite values there). -/
noncomputable def safeDiv (a b : ℝ) : Option ℝ :=
  if b = 0 then none else some (a / b)

/-- Python's `math.log(x, b) = log(x)/log(b)`, with `none` marking the
domain errors Python raises: `ValueError` for `x ≤ 0` or `b ≤ 0`,
`ZeroDivisionError` for `b = 1`. -/
noncomputable def safeLogB (x b : ℝ) : Option ℝ :=
  if 0 < x ∧ 0 < b ∧ b ≠ 1 then some (Real.log x / Real.log b) else none

/-- `np.amin` on a non-empty array (the empty case is never used by the
claims; numpy raises there). -/
noncomputable def amin : List ℝ → ℝ
  | [] => 0
  | x :: xs => xs.foldl min x

/-- `np.amax` on a non-empty array (the empty case is never used by the
claims; numpy raises there). -/
noncomputable def amax : List ℝ → ℝ
  | [] => 0
  | x :: xs => xs.foldl max x

/-- `np.clip(x, lo, hi) = min(max(x, lo), hi)`. -/
noncomputable def npClip (x lo hi : ℝ) : ℝ := min (max x lo) hi

/-- Elementwise application of a fallible operation over an array:
`none` as soon as one element evaluates an undefined operation. -/
def mapOpt (f : ℝ → Option ℝ) : List ℝ → Option (List ℝ)
  | [] => some []
  | x :: xs =>
    match f x with
    | none => none
    | some y => (mapOpt f xs).map (fun ys => y :: ys)

/-- Source sample types that take the quantization path in
`_patched_create_dataset` (`use_quant` is false for uint8, which is
stored untransformed). -/
inductive SrcType
  | u16
  | f32

/-- Output of the quantization kernel of `_patched_create_dataset`
(lines 161-208): the transformed float array (before the final
`astype` cast to the uint8/uint16 target), the β that is persisted as
the `beta` attribute, and the persisted `init_min_intensity` /
`init_max_intensity` attributes (a `None` minimum is stored as 0). -/
structure QuantResult where
  out : List ℝ
  betaOut : ℝ
  initMinA : ℝ
  initMaxA : ℝ

/-- Quantization kernel of `_patched_create_dataset` (lines 161-191).
uint16 sources: `init_max = np.amax(data)` (scanned), no minimum is
computed; `norm` divides by `init_max`, scales to `max_bit_val` and
raises to β, while the non-`norm` branch derives
`β = math.log(max_bit_val, init_max) − eps` and raises the raw samples
to it.  float32 sources additionally scan `init_min = np.amin(data)`
and shift by it.  `none` marks an evaluated division by zero or a
`math.log` domain error. -/
noncomputable def quantizeCreate (srcType : SrcType) (norm : Bool)
    (beta : ℝ) (bit : ℕ) (data : List ℝ) : Option QuantResult :=
  match srcType with
  | .u16 =>
    let init_max := amax data
    if norm then
      (mapOpt (fun v => (safeDiv v init_max).map
        (fun w => (w * maxBitVal bit) ^ beta)) data).map
        (fun out => ⟨out, beta, 0, init_max⟩)
    else
      (safeLogB (maxBitVal bit) init_max).map (fun lb =>
        ⟨data.map (fun v => v ^ (lb - machineEps)), lb - machineEps, 0,
         init_max⟩)
  | .f32 =>
    let init_min := amin data
    let init_max := amax data
    if norm then
      (mapOpt (fun v => (safeDiv (v - init_min) (init_max - init_min)).map
        (fun w => (w * maxBitVal bit) ^ beta)) data).map
        (fun out => ⟨out, beta, init_min, init_max⟩)
    else
      (safeLogB (maxBitVal bit) (init_max - init_min)).map (fun lb =>
        ⟨data.map (fun v => (v - init_min) ^ (lb - machineEps)),
         lb - machineEps, init_min, init_max⟩)

/-- Embedding of `_patched_setitem` (lines 51-94): the float array this
method hands to the original (store) setitem, before the store's own
dtype conversion.  The `norm = False and beta == 1.0` fast path hands
the incoming value through unmodified; the `norm` branch shifts,
divides by `max_val - min_val`, optionally raises to β, and scales to
`max_bitType_val`; the power-law branch shifts, raises to β and clips
to `[0, max_bitType_val]`; the remaining branch only clips.  `none`
marks an evaluated division by zero. -/
noncomputable def patchedSetitem (norm : Bool) (beta : ℝ) (bit : ℕ)
    (max_val min_val : ℝ) (value : List ℝ) : Option (List ℝ) :=
  if norm = false ∧ beta = 1 then some value
  else if norm then
    mapOpt (fun v => (safeDiv (v - min_val) (max_val - min_val)).map
      (fun w => (if beta ≠ 1 ∧ 0 < beta then w ^ beta else w) *
        maxBitVal bit)) value
  else if beta ≠ 1 ∧ 0 < beta then
    some (value.map (fun v =>
      npClip ((v - min_val) ^ beta) 0 (maxBitVal bit)))
  else
    some (value.map (fun v => npClip v 0 (maxBitVal bit)))

/-- Embedding of `_patched_getitem` (lines 14-48): the float array
produced from the stored data before the final `astype` cast back to
the source dtype.  The `norm = False and beta == 1.0` fast path returns
the stored data unmodified; the `norm` branches take the β-th root of
`data / max_bitType_val` (when `beta != 1.0 and beta > 0`) and
de-normalize linearly, without clipping; the non-`norm` branches clip
to `[min_val, max_val]`. -/
noncomputable def patchedGetitem (norm : Bool) (beta : ℝ) (bit : ℕ)
    (max_val min_val : ℝ) (data : List ℝ) : List ℝ :=
  if norm = false ∧ beta = 1 then data
  else if norm then
    if beta ≠ 1 ∧ 0 < beta then
      data.map (fun v =>
        (v / maxBitVal bit) ^ (1 / beta) * (max_val - min_val) + min_val)
    else
      data.map (fun v => v / maxBitVal bit * (max_val - min_val) + min_val)
  else if beta ≠ 1 ∧ 0 < beta then
    data.map (fun v => npClip (v ^ (1 / beta) + min_val) min_val max_val)
  else
    data.map (fun v => npClip v min_val max_val)

/-- The operation the spec's identity fast path demands (claim C2,
written from the spec's words, not from the source): clip each sample
to `[0, max_val]` with `max_val = 2^bit − 1`, then cast to the target
integer width (truncation, which on the clipped non-negative range is
the floor). -/
noncomputable def clipCastSpec (bit : ℕ) (xs : List ℝ) : List ℝ :=
  xs.map (fun x => ((⌊npClip x 0 (maxBitVal bit)⌋ : ℤ) : ℝ))

end H5ffmpeg

namespace H5ffmpeg

/-- C5 is violated by the code: there is no `max == min` guard anywhere
in `patches.py`.  On a constant float32 array the non-normalize branch
of `_patched_create_dataset` evaluates `math.log(max_bit_val, 0.0)`
(a Python `ValueError`), the normalize branch divides by
`init_max - init_min = 0`, an all-zero uint16 array drives
`math.log(max_bit_val, 0.0)` as well, and the normalize branch of
`_patched_setitem` divides by `max_val - min_val = 0`. -/
theorem zero_range_divides_by_zero :
    quantizeCreate .f32 false 1 8 [5, 5] = none ∧
    quantizeCreate .f32 true 2 8 [5, 5] = none ∧
    quantizeCreate .u16 false 1 8 [0, 0] = none ∧
    patchedSetitem true 2 8 5 5 [5] = none := by
  refine ⟨?_, ?_, ?_, ?_⟩
  · norm_num [quantizeCreate, safeLogB, amin, amax, List.foldl]
  · norm_num [quantizeCreate, mapOpt, safeDiv, amin, amax, List.foldl]
  · norm_num [quantizeCreate, safeLogB, amax, List.foldl]
  · norm_num [patchedSetitem, mapOpt, safeDiv]

/-- C3 is refuted at a concrete uint16 input: the quantization kernel
scans the array (`init_max = np.amax(data)`), so a uint16 array with
actual maximum 100 gets `init_max_intensity = 100`, not the uint16
type maximum 65535. -/
theorem u16_max_scanned_counterexample :
    (quantizeCreate .u16 false 1 8 [0, 100]).map QuantResult.initMaxA =
      some 100 ∧ (100 : ℝ) ≠ 65535 := by
  constructor
  · norm_num [quantizeCreate, safeLogB, amax, List.foldl, maxBitVal]
  · norm_num

/-- C3 amended: for uint16 sources the minimum is assumed 0 without a
scan, but the maximum is scanned (`np.amax`); floating sources are
scanned for both their actual minimum and maximum. -/
theorem scan_minmax_attrs (norm : Bool) (beta : ℝ) (bit : ℕ)
    (data : List ℝ) :
    (∀ r, quantizeCreate .u16 norm beta bit data = some r →
      r.initMinA = 0 ∧ r.initMaxA = amax data) ∧
    (∀ r, quantizeCreate .f32 norm beta bit data = some r →
      r.initMinA = amin data ∧ r.initMaxA = amax data) := by
  constructor
  · intro r hr
    simp only [quantizeCreate] at hr
    cases norm with
    | true =>
      cases hm : mapOpt (fun v => (safeDiv v (amax data)).map
          (fun w => (w * maxBitVal bit) ^ beta)) data with
      | none => rw [hm] at hr; simp at hr
      | some out => rw [hm] at hr; simp at hr; rw [← hr]; exact ⟨rfl, rfl⟩
    | false =>
      cases hl : safeLogB (maxBitVal bit) (amax data) with
      | none => rw [hl] at hr; simp at hr
      | some lb => rw [hl] at hr; simp at hr; rw [← hr]; exact ⟨rfl, rfl⟩
  · intro r hr
    simp only [quantizeCreate] at hr
    cases norm with
    | true =>
      cases hm : mapOpt (fun v =>
          (safeDiv (v - amin data) (amax data - amin data)).map
          (fun w => (w * maxBitVal bit) ^ beta)) data with
      | none => rw [hm] at hr; simp at hr
      | some out => rw [hm] at hr; simp at hr; rw [← hr]; exact ⟨rfl, rfl⟩
    | false =>
      cases hl : safeLogB (maxBitVal bit) (amax data - amin data) with
      | none => rw [hl] at hr; simp at hr
      | some lb => rw [hl] at hr; simp at hr; rw [← hr]; exact ⟨rfl, rfl⟩

/-- Witness for the amended C3 at the uint16 array `[0, 100]`. -/
theorem scan_minmax_attrs_witness :
    QuantResult.initMinA
        ⟨[(0 : ℝ), 100].map (fun v => v ^
            (Real.log (maxBitVal 8) / Real.log (amax [(0 : ℝ), 100]) -
              machineEps)),
          Real.log (maxBitVal 8) / Real.log (amax [(0 : ℝ), 100]) -
            machineEps, 0, amax [(0 : ℝ), 100]⟩ = 0 ∧
    QuantResult.initMaxA
        ⟨[(0 : ℝ), 100].map (fun v => v ^
            (Real.log (maxBitVal 8) / Real.log (amax [(0 : ℝ), 100]) -
              machineEps)),
          Real.log (maxBitVal 8) / Real.log (amax [(0 : ℝ), 100]) -
            machineEps, 0, amax [(0 : ℝ), 100]⟩ = amax [(0 : ℝ), 100] := by
  have hq : quantizeCreate .u16 false 1 8 [0, 100] =
      some ⟨[(0 : ℝ), 100].map (fun v => v ^
          (Real.log (maxBitVal 8) / Real.log (amax [(0 : ℝ), 100]) -
            machineEps)),
        Real.log (maxBitVal 8) / Real.log (amax [(0 : ℝ), 100]) -
          machineEps, 0, amax [(0 : ℝ), 100]⟩ := by
    have hmax : amax [(0 : ℝ), 100] = 100 := by
      norm_num [amax, List.foldl]
    norm_num [quantizeCreate, safeLogB, hmax, maxBitVal]
  exact (scan_minmax_attrs false 1 8 [0, 100]).1 _ hq

end H5ffmpeg

namespace H5ffmpeg

/-- The machine epsilon constant is positive. -/
theorem machineEps_pos : 0 < machineEps := by
  unfold machineEps
  positivity

/-- The bit-depth ceiling `2^bit − 1` is positive for a non-zero bit
depth. -/
theorem maxBitVal_pos (bit : ℕ) (hbit : bit ≠ 0) : 0 < maxBitVal bit := by
  unfold maxBitVal
  have h2 : (2 : ℝ) ^ 1 ≤ 2 ^ bit :=
    pow_le_pow_right₀ (by norm_num) (Nat.one_le_iff_ne_zero.mpr hbit)
  norm_num at h2
  linarith

/-- C1 is refuted at the float32 array `[0, 4]` with bit depth 8: the
exponent the kernel derives and persists is
`log(255)/log(4) − np.finfo(float).eps`, which differs from the claimed
`β = log(max_val)/log(max − min)`. -/
theorem beta_formula_off_by_eps :
    (quantizeCreate .f32 false 1 8 [0, 4]).map QuantResult.betaOut =
      some (Real.log 255 / Real.log 4 - machineEps) ∧
    Real.log 255 / Real.log 4 - machineEps ≠
      Real.log 255 / Real.log 4 := by
  constructor
  · have hmin : amin [(0 : ℝ), 4] = 0 := by norm_num [amin, List.foldl]
    have hmax : amax [(0 : ℝ), 4] = 4 := by norm_num [amax, List.foldl]
    have hmv : maxBitVal 8 = 255 := by norm_num [maxBitVal]
    norm_num [quantizeCreate, safeLogB, hmin, hmax, hmv]
  · intro h
    have := machineEps_pos
    have : machineEps = 0 := by linarith [sub_eq_self.mp h]
    linarith

/-- C1 amended: with `normalize = false` and a usable dynamic range
(`max − min` positive and ≠ 1, so the logarithm ratio is defined), the
kernel uses the exponent
`β = log(max_val)/log(max − min) − eps` — the analytic exponent minus
the double machine epsilon subtracted in the source — persists it, and
maps every sample `v` to `(v − min)^β`; for uint16 sources the minimum
is 0 and the maximum is the scanned array maximum. -/
theorem power_law_beta_formula (beta : ℝ) (bit : ℕ) (data : List ℝ)
    (hbit : bit ≠ 0) :
    (0 < amax data - amin data → amax data - amin data ≠ 1 →
      quantizeCreate .f32 false beta bit data =
        some ⟨data.map (fun v => (v - amin data) ^
            (Real.log (maxBitVal bit) /
              Real.log (amax data - amin data) - machineEps)),
          Real.log (maxBitVal bit) / Real.log (amax data - amin data) -
            machineEps,
          amin data, amax data⟩) ∧
    (0 < amax data → amax data ≠ 1 →
      quantizeCreate .u16 false beta bit data =
        some ⟨data.map (fun v => v ^
            (Real.log (maxBitVal bit) / Real.log (amax data) -
              machineEps)),
          Real.log (maxBitVal bit) / Real.log (amax data) - machineEps,
          0, amax data⟩) := by
  have hmv := maxBitVal_pos bit hbit
  constructor
  · intro hpos hne
    have hlog : safeLogB (maxBitVal bit) (amax data - amin data) =
        some (Real.log (maxBitVal bit) /
          Real.log (amax data - amin data)) := by
      unfold safeLogB
      rw [if_pos ⟨hmv, hpos, hne⟩]
    simp [quantizeCreate, hlog]
  · intro hpos hne
    have hlog : safeLogB (maxBitVal bit) (amax data) =
        some (Real.log (maxBitVal bit) / Real.log (amax data)) := by
      unfold safeLogB
      rw [if_pos ⟨hmv, hpos, hne⟩]
    simp [quantizeCreate, hlog]

/-- Witness for the amended C1 at the float32 array `[0, 4]` with bit
depth 8. -/
theorem power_law_beta_formula_witness :
    (0 < amax [(0 : ℝ), 4] - amin [(0 : ℝ), 4] ∧
      amax [(0 : ℝ), 4] - amin [(0 : ℝ), 4] ≠ 1) ∧
    quantizeCreate .f32 false 1 8 [0, 4] =
      some ⟨[(0 : ℝ), 4].map (fun v => (v - amin [(0 : ℝ), 4]) ^
          (Real.log (maxBitVal 8) /
            Real.log (amax [(0 : ℝ), 4] - amin [(0 : ℝ), 4]) -
            machineEps)),
        Real.log (maxBitVal 8) /
          Real.log (amax [(0 : ℝ), 4] - amin [(0 : ℝ), 4]) - machineEps,
        amin [(0 : ℝ), 4], amax [(0 : ℝ), 4]⟩ := by
  have hmin : amin [(0 : ℝ), 4] = 0 := by norm_num [amin, List.foldl]
  have hmax : amax [(0 : ℝ), 4] = 4 := by norm_num [amax, List.foldl]
  have h1 : 0 < amax [(0 : ℝ), 4] - amin [(0 : ℝ), 4] := by
    rw [hmin, hmax]; norm_num
  have h2 : amax [(0 : ℝ), 4] - amin [(0 : ℝ), 4] ≠ 1 := by
    rw [hmin, hmax]; norm_num
  exact ⟨⟨h1, h2⟩,
    (power_law_beta_formula 1 8 [0, 4] (by norm_num)).1 h1 h2⟩

end H5ffmpeg

namespace H5ffmpeg

/-- C2 is refuted at the out-of-range input `[300.0]` with bit depth 8:
the fast path hands 300.0 to the store unmodified, while the clip-cast
the claim demands produces 255. -/
theorem fast_path_not_clip_cast :
    patchedSetitem false 1 8 255 0 [300] = some [300] ∧
    clipCastSpec 8 [300] = [255] ∧
    ([(300 : ℝ)] ≠ [(255 : ℝ)]) := by
  refine ⟨?_, ?_, by norm_num⟩
  · simp [patchedSetitem]
  · have hclip : npClip 300 0 (maxBitVal 8) = 255 := by
      unfold npClip maxBitVal
      rw [max_eq_left (by norm_num), min_eq_right (by norm_num)]
      norm_num
    have h255 : (255 : ℝ) = ((255 : ℤ) : ℝ) := by norm_num
    simp only [clipCastSpec, List.map_cons, List.map_nil, hclip]
    rw [h255, Int.floor_intCast]

/-- C2 amended: with `β = 1.0` and `normalize = false` the transform is
skipped entirely and the input is handed to the store unmodified; this
agrees with clipping to `[0, max_val]` and casting exactly when every
sample is already an integer within `[0, max_val]`. -/
theorem fast_path_passthrough (bit : ℕ) (max_val min_val : ℝ)
    (xs : List ℝ)
    (h : ∀ x ∈ xs, ∃ n : ℤ, x = n ∧ 0 ≤ n ∧ (n : ℝ) ≤ maxBitVal bit) :
    patchedSetitem false 1 bit max_val min_val xs = some xs ∧
    patchedSetitem false 1 bit max_val min_val xs =
      some (clipCastSpec bit xs) := by
  have hfast : patchedSetitem false 1 bit max_val min_val xs = some xs := by
    simp [patchedSetitem]
  have hid : ∀ ys : List ℝ,
      (∀ x ∈ ys, ∃ n : ℤ, x = n ∧ 0 ≤ n ∧ (n : ℝ) ≤ maxBitVal bit) →
      clipCastSpec bit ys = ys := by
    intro ys
    induction ys with
    | nil => intro _; rfl
    | cons a as ih =>
      intro hy
      obtain ⟨n, hn, hn0, hnle⟩ := hy a (List.mem_cons_self a as)
      have h1 : npClip a 0 (maxBitVal bit) = a := by
        unfold npClip
        rw [max_eq_left (by rw [hn]; exact_mod_cast hn0),
          min_eq_left (by rw [hn]; exact hnle)]
      have h2 : ((⌊npClip a 0 (maxBitVal bit)⌋ : ℤ) : ℝ) = a := by
        rw [h1, hn, Int.floor_intCast]
      have h3 : clipCastSpec bit as = as :=
        ih (fun x hx => hy x (List.mem_cons_of_mem a hx))
      simp only [clipCastSpec, List.map_cons] at h3 ⊢
      rw [h2, h3]
  exact ⟨hfast, by rw [hfast, hid xs h]⟩

/-- Witness for the amended C2 at the in-range integer sample `[7.0]`
with bit depth 8. -/
theorem fast_path_passthrough_witness :
    (∀ x ∈ [(7 : ℝ)], ∃ n : ℤ, x = n ∧ 0 ≤ n ∧ (n : ℝ) ≤ maxBitVal 8) ∧
    patchedSetitem false 1 8 255 0 [(7 : ℝ)] =
      some (clipCastSpec 8 [(7 : ℝ)]) := by
  have h : ∀ x ∈ [(7 : ℝ)], ∃ n : ℤ, x = n ∧ 0 ≤ n ∧
      (n : ℝ) ≤ maxBitVal 8 := by
    intro x hx
    simp only [List.mem_singleton] at hx
    exact ⟨7, by rw [hx]; norm_num, by norm_num,
      by norm_num [maxBitVal]⟩
  exact ⟨h, (fast_path_passthrough 8 255 0 [(7 : ℝ)] h).2⟩

/-- C4 is refuted at stored value 300 with `norm = true`, `β = 1`,
profile `[min, max] = [0, 100]`, bit depth 8: the normalize branch of
the inverse de-normalizes linearly to `300/255·100 = 2000/17 ≈ 117.6`
and never clips it back into `[0, 100]`. -/
theorem inverse_norm_branch_not_clipped :
    patchedGetitem true 1 8 100 0 [300] = [2000 / 17] ∧
    ¬((2000 / 17 : ℝ) ≤ 100) := by
  constructor
  · norm_num [patchedGetitem, maxBitVal]
  · norm_num

/-- C4 amended: the inverse reconstructs each branch's exact algebraic
inverse — the β-th root of `data/max_bit_val` followed by linear
de-normalization in the normalize branch, plain linear de-normalization
when β is not usable, and the β-th root plus `min` in the power-law
branch — but the result is clipped to `[sample_min, sample_max]` only
in the non-normalize branches; the normalize branches return the
de-normalized value unclipped. -/
theorem inverse_branch_formulas (beta : ℝ) (bit : ℕ)
    (max_val min_val : ℝ) (data : List ℝ) (hle : min_val ≤ max_val) :
    (beta ≠ 1 → 0 < beta →
      patchedGetitem true beta bit max_val min_val data =
        data.map (fun v =>
          (v / maxBitVal bit) ^ (1 / beta) * (max_val - min_val) +
            min_val)) ∧
    (¬(beta ≠ 1 ∧ 0 < beta) →
      patchedGetitem true beta bit max_val min_val data =
        data.map (fun v =>
          v / maxBitVal bit * (max_val - min_val) + min_val)) ∧
    (beta ≠ 1 → 0 < beta →
      patchedGetitem false beta bit max_val min_val data =
        data.map (fun v =>
          npClip (v ^ (1 / beta) + min_val) min_val max_val) ∧
      ∀ y ∈ patchedGetitem false beta bit max_val min_val data,
        min_val ≤ y ∧ y ≤ max_val) ∧
    (beta ≠ 1 → ¬(0 < beta) →
      ∀ y ∈ patchedGetitem false beta bit max_val min_val data,
        min_val ≤ y ∧ y ≤ max_val) := by
  have hclip : ∀ x, min_val ≤ npClip x min_val max_val ∧
      npClip x min_val max_val ≤ max_val := by
    intro x
    unfold npClip
    exact ⟨le_min (le_max_right x min_val) hle, min_le_right _ _⟩
  refine ⟨?_, ?_, ?_, ?_⟩
  · intro hne hpos
    simp [patchedGetitem, hne, hpos]
  · intro hnot
    by_cases h1 : beta = 1
    · simp [patchedGetitem, h1]
    · have h2 : ¬(0 < beta) := by
        by_contra hp
        exact hnot ⟨h1, hp⟩
      simp [patchedGetitem, h1, h2]
  · intro hne hpos
    have heq : patchedGetitem false beta bit max_val min_val data =
        data.map (fun v =>
          npClip (v ^ (1 / beta) + min_val) min_val max_val) := by
      simp [patchedGetitem, hne, hpos]
    refine ⟨heq, ?_⟩
    intro y hy
    rw [heq] at hy
    obtain ⟨v, hv, rfl⟩ := List.mem_map.mp hy
    exact hclip _
  · intro hne hnpos y hy
    have heq : patchedGetitem false beta bit max_val min_val data =
        data.map (fun v => npClip v min_val max_val) := by
      simp [patchedGetitem, hne, hnpos]
    rw [heq] at hy
    obtain ⟨v, hv, rfl⟩ := List.mem_map.mp hy
    exact hclip _

end H5ffmpeg

namespace H5ffmpeg

/-- Witness for the amended C4 at `β = 2`, bit depth 8, profile
`[0, 100]`, stored value 4: the normalize root branch formula. -/
theorem inverse_branch_formulas_witness :
    ((0 : ℝ) ≤ 100 ∧ (2 : ℝ) ≠ 1 ∧ (0 : ℝ) < 2) ∧
    patchedGetitem true 2 8 100 0 [4] =
      [(4 : ℝ)].map (fun v =>
        (v / maxBitVal 8) ^ (1 / (2 : ℝ)) * (100 - 0) + 0) :=
  ⟨⟨by norm_num, by norm_num, by norm_num⟩,
    (inverse_branch_formulas 2 8 100 0 [4] (by norm_num)).1
      (by norm_num) (by norm_num)⟩

/-- Witness for C10 at probed counts `⟨1, 0⟩`, codec `"libx264"`,
requested id 3. -/
theorem validate_result_bounded_witness :
    ∃ v, validate_and_adjust_gpu_id (some ⟨1, 0⟩) "libx264" 3 = some v ∧
      -1 ≤ v ∧ (0 ≤ (3 : Int) → v ≤ 3) :=
  validate_result_bounded ⟨1, 0⟩ "libx264" 3

end H5ffmpeg
